import Mathlib

/-!
Shallow embedding of browsermobproxy/server.py.

Python strings are modeled as lists of code points (List Char), Python
integers as Int.  External effects (filesystem, environment, sockets,
subprocesses, OS signals) are modeled as explicit environment records
holding the outcome that each OS call made by the source returns or
raises during one execution.
-/

namespace RemoteServer

/-- Embedding of the url property: the Python expression
"http://%s:%d" % (self.host, self.port), over code-point lists, where
%d formats the integer in decimal. -/
def url (host : List Char) (port : Int) : List Char :=
  "http://".data ++ host ++ ":".data ++ (toString port).data

/-- Embedding of create_proxy: params defaults to the empty dict when the
argument is None, and Client is constructed from self.url[7:] (Python
slicing, List.drop on code points) together with params.  The value is
the pair of arguments handed to Client. -/
def create_proxy (host : List Char) (port : Int)
    (params : Option (List (String × String))) :
    List Char × List (String × String) :=
  ⟨(url host port).drop 7, (match params with | none => [] | some ps => ps)⟩

/-- Outcomes of the two OS calls inside the try block of _is_listening:
socket creation and the connect call, the latter given the timeout in
seconds that settimeout installed.  Except.error models a raised
socket.error, the exception class every network-level failure of these
calls belongs to and the only class the except clause catches. -/
structure ProbeEnv where
  socketResult : Except Unit Unit
  connectResult : Nat → Except Unit Unit

/-- The try block of _is_listening: create the socket, set the timeout to
1 second, connect, close, return True; a raised socket.error propagates
out of the block. -/
def probeTry (env : ProbeEnv) : Except Unit Bool :=
  match env.socketResult with
  | Except.error e => Except.error e
  | Except.ok _ =>
    match env.connectResult 1 with
    | Except.error e => Except.error e
    | Except.ok _ => Except.ok true

/-- Embedding of _is_listening: run the try block; the except clause turns
any socket.error raised there into the return value False. -/
def is_listening (env : ProbeEnv) : Bool :=
  match probeTry env with
  | Except.ok b => b
  | Except.error _ => false

end RemoteServer

/-- Python str.split with a one-character separator, over code points:
splitting the empty string yields one empty field, and every occurrence
of the separator starts a new field. -/
def pySplit (sep : Char) : List Char → List (List Char)
  | [] => [[]]
  | c :: cs =>
    if c = sep then [] :: pySplit sep cs
    else
      match pySplit sep cs with
      | [] => [[c]]
      | g :: gs => (c :: g) :: gs

/-- Python path.endswith(".bat"): the last four code points equal ".bat". -/
def endsWithBat (p : List Char) : Bool :=
  p.drop (p.length - 4) == ".bat".data

namespace Server

/-- The separator used to split the PATH environment variable: ";" when
platform.system() is "Windows", ":" otherwise. -/
def path_var_sep (isWindows : Bool) : Char :=
  if isWindows then ';' else ':'

/-- The suffix adjustment done in Server.__init__ before any filesystem
check: when platform.system() is "Windows" and the given path does not
already end in ".bat", append ".bat". -/
def adjustPath (isWindows : Bool) (path : List Char) : List Char :=
  if isWindows then
    (if endsWithBat path then path else path ++ ".bat".data)
  else path

/-- The PATH search loop of Server.__init__: exec_not_on_path starts True
and the loop breaks with False as soon as os.path.isfile(os.path.join(
directory, path)) holds for some directory.  The filesystem and
os.path.join are the injected parameters isfile and join. -/
def exec_not_on_path (isfile : List Char → Bool)
    (join : List Char → List Char → List Char) (path : List Char) :
    List (List Char) → Bool
  | [] => true
  | d :: ds =>
    if isfile (join d path) then false
    else exec_not_on_path isfile join path ds

/-- Whether Server.__init__ raises ProxyServerError ("binary could not be
found"): after the suffix adjustment, neither os.path.isfile(path) holds
nor does any directory of the PATH variable, split on the platform
separator, contain a file at join(directory, path). -/
def init_raises (isWindows : Bool) (isfile : List Char → Bool)
    (join : List Char → List Char → List Char)
    (pathEnv path : List Char) : Bool :=
  !(isfile (adjustPath isWindows path)) &&
    exec_not_on_path isfile join (adjustPath isWindows path)
      (pySplit (path_var_sep isWindows) pathEnv)

/-- The launch argument vector built at the end of Server.__init__:
["sh"] when platform.system() is "Darwin", nothing otherwise, followed
by the resolved path and "--port=%s" % port. -/
def buildCommand (isDarwin : Bool) (path : String) (port : Int) :
    List String :=
  (if isDarwin then ["sh"] else []) ++ [path, "--port=" ++ toString port]

/-- Truthiness of the Python value self.process.poll(): None and the exit
status 0 are falsy, every other exit status is truthy. -/
def pollTruthy : Option Int → Bool
  | none => false
  | some c => c != 0

/-- Outcome of the readiness loop in Server.start. -/
inductive StartResult where
  /-- the connect probe succeeded and the loop exited normally -/
  | ok
  /-- raise ProxyServerError referencing the log file (startup failure) -/
  | startupFailure
  /-- self.stop() followed by raise ProxyServerError (cannot connect) -/
  | timeoutAfterStop
  deriving DecidableEq

/-- Embedding of the readiness loop of Server.start.  listening i is the
result of the i-th _is_listening probe, poll i the result of
self.process.poll() in the i-th iteration, retry_count the configured
budget.  fuel bounds the number of loop iterations that are unfolded:
the value none means the loop is still running after fuel iterations. -/
def startLoop (listening : Nat → Bool) (poll : Nat → Option Int)
    (retry_count : Int) : Nat → Nat → Int → Option StartResult
  | 0, _, _ => none
  | fuel + 1, i, count =>
    if listening i then some StartResult.ok
    else if pollTruthy (poll i) then some StartResult.startupFailure
    else if count + 1 = retry_count then some StartResult.timeoutAfterStop
    else startLoop listening poll retry_count fuel (i + 1) (count + 1)

end Server

/-- How one execution of Server.stop terminates. -/
inductive StopOutcome where
  /-- uncaught AttributeError from self.process.poll() when the process
  field is still None (the poll happens before the try block) -/
  | noneAttributeError
  /-- the plain return taken when poll() is not None -/
  | earlyReturn
  /-- kill, platform cleanup and the log-file close all completed -/
  | normal
  /-- raise NotImplementedError, translated from a caught AttributeError -/
  | unsupportedOperation
  /-- raise InterruptedError, translated from a caught CalledProcessError -/
  | cleanupError
  deriving DecidableEq

/-- Which side effects one execution of Server.stop performed. -/
structure StopEffects where
  outcome : StopOutcome
  /-- self.process.kill() and self.process.wait() completed -/
  killed : Bool
  /-- the netstat sweep ran its taskkill loop to completion -/
  swept : Bool
  /-- os.kill(group_pid, SIGINT) was issued -/
  groupSignaled : Bool
  /-- self.log_file.close() was reached -/
  logClosed : Bool
  deriving DecidableEq

/-- The state and OS-call outcomes one execution of Server.stop observes.
process is none when the field still holds None (never started); some p
gives the value of self.process.poll(), itself none while the process is
alive.  The remaining flags record whether each call the source makes
raises: kill raising AttributeError, subprocess.check_output(netstat)
raising CalledProcessError, some subprocess.run(taskkill) raising
CalledProcessError, os.getpgid raising AttributeError. -/
structure StopEnv where
  process : Option (Option Int)
  platformWin : Bool
  winEnv : Bool
  killRaisesAttr : Bool
  netstatRaisesCPE : Bool
  taskkillRaisesCPE : Bool
  getpgidRaisesAttr : Bool

namespace Server

/-- Embedding of Server.stop.  The structure mirrors the source: the poll
guard with an early return sits before the try block; inside it, kill and
wait, then either the netstat and taskkill sweep (platforms whose name
starts with "win") or the process-group SIGINT; a caught AttributeError
is re-raised as NotImplementedError and a caught CalledProcessError as
InterruptedError; self.log_file.close() runs only when the try block
finished without raising. -/
def stop (env : StopEnv) : StopEffects :=
  match env.process with
  | none => ⟨StopOutcome.noneAttributeError, false, false, false, false⟩
  | some (some _) => ⟨StopOutcome.earlyReturn, false, false, false, false⟩
  | some none =>
    if env.killRaisesAttr then
      ⟨StopOutcome.unsupportedOperation, false, false, false, false⟩
    else if env.platformWin then
      if env.netstatRaisesCPE then
        ⟨StopOutcome.cleanupError, true, false, false, false⟩
      else if env.taskkillRaisesCPE then
        ⟨StopOutcome.cleanupError, true, false, false, false⟩
      else ⟨StopOutcome.normal, true, true, false, true⟩
    else
      if !env.winEnv && env.getpgidRaisesAttr then
        ⟨StopOutcome.unsupportedOperation, true, false, false, false⟩
      else ⟨StopOutcome.normal, true, false, true, true⟩

end Server

/-! Helper lemmas. -/

/-- The PATH loop reports True exactly when no searched directory holds
the file. -/
theorem exec_not_on_path_iff (isfile : List Char → Bool)
    (join : List Char → List Char → List Char) (p : List Char)
    (ds : List (List Char)) :
    Server.exec_not_on_path isfile join p ds = true ↔
      ∀ d ∈ ds, isfile (join d p) = false := by
  induction ds with
  | nil => simp [Server.exec_not_on_path]
  | cons d ds ih =>
    cases h : isfile (join d p) with
    | true => simp [Server.exec_not_on_path, h]
    | false => simp [Server.exec_not_on_path, h, ih]

/-- With the probe never succeeding and the process never exiting, the
loop raises the timeout error exactly when the incremented counter
reaches the budget, after retry_count iterations. -/
theorem startLoop_exhausts (listening : Nat → Bool) (poll : Nat → Option Int)
    (hl : ∀ i, listening i = false) (hp : ∀ i, poll i = none) :
    ∀ (k i : Nat) (count : Int),
      Server.startLoop listening poll (count + k + 1) (k + 1) i count =
        some Server.StartResult.timeoutAfterStop := by
  intro k
  induction k with
  | zero =>
    intro i count
    simp [Server.startLoop, hl, hp, Server.pollTruthy]
  | succ k ih =>
    intro i count
    rw [Server.startLoop]
    rw [hl i, hp i]
    simp only [Server.pollTruthy, if_false, Bool.false_eq_true]
    rw [if_neg (by push_cast; omega)]
    have h3 : (count + (((k : Nat) + 1 : Nat) : Int) + 1) =
        ((count + 1) + (k : Int) + 1) := by push_cast; ring
    rw [h3]
    exact ih (i + 1) (count + 1)

/-! Theorems for the claims. -/

/-- C8: the string handed to Client by create_proxy is exactly
host ++ ":" ++ decimal(port), and a missing params argument is passed as
the empty map while a given one is passed through unchanged. -/
theorem create_proxy_hostport_exact (host : List Char) (port : Int)
    (params : Option (List (String × String)))
    (ps : List (String × String)) :
    (RemoteServer.create_proxy host port params).1 =
        host ++ ":".data ++ (toString port).data ∧
      (RemoteServer.create_proxy host port none).2 = [] ∧
      (RemoteServer.create_proxy host port (some ps)).2 = ps := by
  refine ⟨?_, rfl, rfl⟩
  show (("http://".data ++ host ++ ":".data ++ (toString port).data).drop 7)
      = host ++ ":".data ++ (toString port).data
  simp only [List.append_assoc]
  rw [show (7 : Nat) = "http://".data.length from rfl, List.drop_left]

/-- C9: _is_listening returns True exactly when socket creation and the
connect call under the 1-second timeout both succeed; every socket.error
raised inside the try block, in particular by the connect attempt, is
caught and turned into the return value False, so the probe never
propagates such an error. -/
theorem is_listening_iff_connect_ok (env : RemoteServer.ProbeEnv) :
    RemoteServer.is_listening env = true ↔
      (env.socketResult = Except.ok () ∧
        env.connectResult 1 = Except.ok ()) := by
  obtain ⟨s, c⟩ := env
  cases s with
  | error e =>
    cases e
    simp [RemoteServer.is_listening, RemoteServer.probeTry]
  | ok u =>
    cases u
    cases hc : c 1 with
    | error e =>
      cases e
      simp [RemoteServer.is_listening, RemoteServer.probeTry, hc]
    | ok u =>
      cases u
      simp [RemoteServer.is_listening, RemoteServer.probeTry, hc]

/-- C10: the launch argument vector always ends in "--port=" followed by
the decimal port; on Darwin it is ["sh", path, port-arg] and on every
other platform it is [path, port-arg] with no wrapper. -/
theorem command_port_last_and_wrapper (path : String) (port : Int) :
    Server.buildCommand true path port =
        ["sh", path, "--port=" ++ toString port] ∧
      Server.buildCommand false path port =
        [path, "--port=" ++ toString port] ∧
      ∀ d : Bool, (Server.buildCommand d path port).getLast? =
        some ("--port=" ++ toString port) := by
  refine ⟨rfl, rfl, ?_⟩
  intro d
  cases d <;> rfl

/-- C6: Server.__init__ raises the binary-not-found ProxyServerError
exactly when, after the Windows-only ".bat" suffix adjustment, the
literal path is not an existing file and no directory of the PATH
variable, split on the platform separator, contains a file at the joined
location. -/
theorem init_raises_iff_not_found (isWindows : Bool)
    (isfile : List Char → Bool) (join : List Char → List Char → List Char)
    (pathEnv path : List Char) :
    Server.init_raises isWindows isfile join pathEnv path = true ↔
      (isfile (Server.adjustPath isWindows path) = false ∧
        ∀ d ∈ pySplit (Server.path_var_sep isWindows) pathEnv,
          isfile (join d (Server.adjustPath isWindows path)) = false) := by
  rw [Server.init_raises, Bool.and_eq_true, Bool.not_eq_true',
    exec_not_on_path_iff]

/-- C6 witness: on a non-Windows platform with PATH "/bin:/opt", a name
that exists nowhere makes the constructor raise. -/
theorem init_raises_iff_not_found_witness :
    Server.init_raises false (fun s => s == "/opt/tool.x".data)
        (fun a b => a ++ [Char.ofNat 47] ++ b) "/bin:/opt".data
        "tool".data = true :=
  (init_raises_iff_not_found false (fun s => s == "/opt/tool.x".data)
    (fun a b => a ++ [Char.ofNat 47] ++ b) "/bin:/opt".data
    "tool".data).mpr (by decide)

/-- C1: the readiness loop tests the truthiness of poll() rather than
whether it is None, so a process that has exited with status 0 is
treated as still running and the loop keeps retrying until the budget
raises the timeout error, while a nonzero exit status does abort
immediately with the startup-failure error. -/
theorem start_poll_zero_not_fast_fail :
    Server.startLoop (fun _ => false) (fun _ => some 0) 3 3 0 0 =
        some Server.StartResult.timeoutAfterStop ∧
      Server.startLoop (fun _ => false) (fun _ => some 1) 3 3 0 0 =
        some Server.StartResult.startupFailure :=
  ⟨rfl, rfl⟩

/-- C2 counterexample: with retry_count 0, a probe that never succeeds
and a process that never exits, the loop is still running after 50
iterations, although the claim demands termination after at most 0
sleep-and-retry iterations; the count check fires only after an
increment, so it never reaches 0. -/
theorem start_retry_zero_loops_forever :
    Server.startLoop (fun _ => false) (fun _ => none) 0 50 0 0 = none :=
  rfl

/-- C2 amended: for every retry_count of at least 1, if the connect probe
never succeeds and the supervised process never exits, the loop finishes
within retry_count iterations by calling stop and raising the timeout
error. -/
theorem start_timeout_after_retries (listening : Nat → Bool)
    (poll : Nat → Option Int) (n : Nat) (hl : ∀ i, listening i = false)
    (hp : ∀ i, poll i = none) (hn : 1 ≤ n) :
    Server.startLoop listening poll (n : Int) n 0 0 =
      some Server.StartResult.timeoutAfterStop := by
  obtain ⟨k, rfl⟩ : ∃ k, n = k + 1 := ⟨n - 1, by omega⟩
  have h := startLoop_exhausts listening poll hl hp k 0 0
  have hc : ((0 : Int) + (k : Int) + 1) = (((k + 1 : Nat) : Int)) := by
    push_cast
    ring
  rw [hc] at h
  exact h

/-- C2 witness: with budget 2 the loop raises the timeout error within 2
iterations. -/
theorem start_timeout_after_retries_witness :
    Server.startLoop (fun _ => false) (fun _ => none) ((2 : Nat) : Int)
        2 0 0 = some Server.StartResult.timeoutAfterStop :=
  start_timeout_after_retries (fun _ => false) (fun _ => none) 2
    (fun _ => rfl) (fun _ => rfl) (by omega)

/-- C3 counterexample: on the early-return path taken when poll() reports
an exit status, stop finishes without reaching self.log_file.close(),
although the claim demands that the log handle be closed on every path. -/
theorem stop_already_exited_skips_log_close :
    Server.stop ⟨some (some 0), false, false, false, false, false, false⟩ =
        ⟨StopOutcome.earlyReturn, false, false, false, false⟩ ∧
      (Server.stop
        ⟨some (some 0), false, false, false, false, false, false⟩).logClosed
        = false :=
  ⟨rfl, rfl⟩

/-- C3 amended: stop short-circuits instead of aggregating: the owned log
file handle is closed exactly on the executions that finish normally,
with the process previously alive, the kill completed and the platform
cleanup raising nothing; the early return for an already-exited process
and every raised error skip the close. -/
theorem stop_log_close_iff_normal (env : StopEnv) :
    (Server.stop env).logClosed = true ↔
      (Server.stop env).outcome = StopOutcome.normal := by
  obtain ⟨proc, pw, we, ka, ncpe, tcpe, ga⟩ := env
  cases proc with
  | none => simp [Server.stop]
  | some p =>
    cases p with
    | none =>
      cases ka <;> cases pw <;> cases we <;> cases ncpe <;> cases tcpe <;>
        cases ga <;> simp [Server.stop]
    | some c => simp [Server.stop]

/-- C4: whenever poll() reports an exit status, stop takes the early
return: no kill, no sweep, no group signal, no error raised, matching
the idempotence contract for a second call after a completed stop. -/
theorem stop_idempotent_early_return (env : StopEnv) (c : Int)
    (h : env.process = some (some c)) :
    Server.stop env =
      ⟨StopOutcome.earlyReturn, false, false, false, false⟩ := by
  obtain ⟨proc, pw, we, ka, ncpe, tcpe, ga⟩ := env
  have hp : proc = some (some c) := h
  subst hp
  rfl

/-- C4 witness: a concrete already-exited server on the Windows flags. -/
theorem stop_idempotent_early_return_witness :
    Server.stop ⟨some (some 3), true, true, false, false, false, false⟩ =
      ⟨StopOutcome.earlyReturn, false, false, false, false⟩ :=
  stop_idempotent_early_return
    ⟨some (some 3), true, true, false, false, false, false⟩ 3 rfl

/-- C5: calling stop on a server that was never started dereferences the
None process field before the try block, so it ends in the uncaught
AttributeError: not the silent early return, not a normal completion,
and none of the translated error outcomes. -/
theorem stop_without_start_attribute_error (env : StopEnv)
    (h : env.process = none) :
    Server.stop env =
        ⟨StopOutcome.noneAttributeError, false, false, false, false⟩ ∧
      (Server.stop env).outcome ≠ StopOutcome.earlyReturn ∧
      (Server.stop env).outcome ≠ StopOutcome.normal ∧
      (Server.stop env).outcome ≠ StopOutcome.cleanupError ∧
      (Server.stop env).outcome ≠ StopOutcome.unsupportedOperation := by
  obtain ⟨proc, pw, we, ka, ncpe, tcpe, ga⟩ := env
  have hp : proc = none := h
  subst hp
  refine ⟨rfl, ?_, ?_, ?_, ?_⟩ <;> simp [Server.stop]

/-- C5 witness: a concrete never-started server. -/
theorem stop_without_start_attribute_error_witness :
    Server.stop ⟨none, false, false, false, false, false, false⟩ =
        ⟨StopOutcome.noneAttributeError, false, false, false, false⟩ ∧
      (Server.stop
          ⟨none, false, false, false, false, false, false⟩).outcome ≠
        StopOutcome.earlyReturn ∧
      (Server.stop
          ⟨none, false, false, false, false, false, false⟩).outcome ≠
        StopOutcome.normal ∧
      (Server.stop
          ⟨none, false, false, false, false, false, false⟩).outcome ≠
        StopOutcome.cleanupError ∧
      (Server.stop
          ⟨none, false, false, false, false, false, false⟩).outcome ≠
        StopOutcome.unsupportedOperation :=
  stop_without_start_attribute_error
    ⟨none, false, false, false, false, false, false⟩ rfl

/-- C7: with the process still alive and the kill itself not raising, a
CalledProcessError from the netstat query or from a taskkill run makes
stop raise InterruptedError, and on the non-Windows branch a missing
os.getpgid (AttributeError) makes stop raise NotImplementedError; both
reach the caller. -/
theorem stop_error_propagation (env : StopEnv)
    (halive : env.process = some none)
    (hka : env.killRaisesAttr = false) :
    ((env.platformWin = true →
        (env.netstatRaisesCPE = true ∨ env.taskkillRaisesCPE = true) →
        (Server.stop env).outcome = StopOutcome.cleanupError) ∧
      (env.platformWin = false → env.winEnv = false →
        env.getpgidRaisesAttr = true →
        (Server.stop env).outcome = StopOutcome.unsupportedOperation)) := by
  obtain ⟨proc, pw, we, ka, ncpe, tcpe, ga⟩ := env
  have hp : proc = some none := halive
  have hk : ka = false := hka
  subst hp
  subst hk
  constructor
  · intro hpw hcpe
    have hw : pw = true := hpw
    subst hw
    rcases hcpe with hn | ht
    · have hn2 : ncpe = true := hn
      subst hn2
      rfl
    · have ht2 : tcpe = true := ht
      subst ht2
      cases ncpe <;> rfl
  · intro hpw hwe hga
    have hw : pw = false := hpw
    have hv : we = false := hwe
    have hg : ga = true := hga
    subst hw
    subst hv
    subst hg
    rfl

/-- C7 witness: one Windows execution with a failing netstat query and
one non-Windows execution with os.getpgid unavailable. -/
theorem stop_error_propagation_witness :
    (Server.stop
        ⟨some none, true, false, false, true, false, false⟩).outcome =
        StopOutcome.cleanupError ∧
      (Server.stop
          ⟨some none, false, false, false, false, false, true⟩).outcome =
        StopOutcome.unsupportedOperation :=
  ⟨(stop_error_propagation
      ⟨some none, true, false, false, true, false, false⟩ rfl rfl).1 rfl
      (Or.inl rfl),
    (stop_error_propagation
      ⟨some none, false, false, false, false, false, true⟩ rfl rfl).2 rfl
      rfl rfl⟩
